import Mathlib

/-!
Formal model of the document-chat application in app.py.

The model covers the core the specification describes: the persisted
session store (load_persisted_state / persist_state), the index binding
resolver (ensure_vector_store_id), the document ingestion pipeline (the
upload dedup loop and the batch upload step), and the conversation engine
(the two-part chat rerun logic). External collaborators (the vector-store
service and the streaming completion service) are modelled as explicit
oracle environments; calls made to them are recorded in traces where a
claim is about which calls happen.
-/

deriving instance DecidableEq for Except

namespace AskDocs

/-- Shape of the persisted JSON state file: the five keys of DEFAULT_STATE
in app.py (vector_store_id, num_uploaded_files, file_hashes_in_store,
existing_filenames_in_store, chat_history). The two Python sets are
modelled as lists used only through membership. -/
structure StateDict where
  vector_store_id : Option String
  num_uploaded_files : Nat
  file_hashes_in_store : List String
  existing_filenames_in_store : List String
  chat_history : List (String × String)
  deriving DecidableEq, Repr

/-- DEFAULT_STATE from app.py. -/
def DEFAULT_STATE : StateDict :=
  { vector_store_id := none
    num_uploaded_files := 0
    file_hashes_in_store := []
    existing_filenames_in_store := []
    chat_history := [] }

/-- A well-formed parsed JSON state document. Each field is wrapped in an
outer Option recording whether the key is present in the parsed dict, so
that dict.update semantics (present keys override, absent keys keep the
default) can be expressed. -/
structure PersistedDoc where
  vector_store_id : Option (Option String)
  num_uploaded_files : Option Nat
  file_hashes_in_store : Option (List String)
  existing_filenames_in_store : Option (List String)
  chat_history : Option (List (String × String))
  deriving DecidableEq, Repr

/-- Python dict.update applied to a copy of the defaults: keys present in
the parsed document override the base, absent keys keep the base value. -/
def dictUpdate (base : StateDict) (d : PersistedDoc) : StateDict :=
  { vector_store_id := d.vector_store_id.getD base.vector_store_id
    num_uploaded_files := d.num_uploaded_files.getD base.num_uploaded_files
    file_hashes_in_store := d.file_hashes_in_store.getD base.file_hashes_in_store
    existing_filenames_in_store :=
      d.existing_filenames_in_store.getD base.existing_filenames_in_store
    chat_history := d.chat_history.getD base.chat_history }

/-- Condition of the state file on disk when load_persisted_state runs:
the file may be missing (STATE_PATH.exists() is false), unreadable (open
or read raises), malformed (json.load or dict.update raises), or a
well-formed JSON document. -/
inductive FileCond
  | missing
  | unreadable
  | malformed
  | wellFormed (d : PersistedDoc)
  deriving DecidableEq, Repr

/-- load_persisted_state from app.py: if the file exists, try to read and
parse it and merge the parsed fields over a copy of DEFAULT_STATE; any
exception inside the try block is swallowed and the defaults are returned;
a missing file also yields the defaults. -/
def load_persisted_state (fs : FileCond) : StateDict :=
  match fs with
  | FileCond.missing => DEFAULT_STATE
  | FileCond.unreadable => DEFAULT_STATE
  | FileCond.malformed => DEFAULT_STATE
  | FileCond.wellFormed d => dictUpdate DEFAULT_STATE d

/-- In-memory Streamlit session state: the persisted fields plus the
processing flag added for the two-part chat logic. -/
structure SessionState where
  vector_store_id : Option String
  num_uploaded_files : Nat
  file_hashes_in_store : List String
  existing_filenames_in_store : List String
  chat_history : List (String × String)
  processing : Bool
  deriving DecidableEq, Repr

/-- Session-state initialisation at startup from the loaded persisted
dict; the processing flag starts false. -/
def initSession (p : StateDict) : SessionState :=
  { vector_store_id := p.vector_store_id
    num_uploaded_files := p.num_uploaded_files
    file_hashes_in_store := p.file_hashes_in_store
    existing_filenames_in_store := p.existing_filenames_in_store
    chat_history := p.chat_history
    processing := false }

/-- The world seen by the program: the in-memory session state together
with the durable copy held in the state file. -/
structure World where
  s : SessionState
  d : StateDict
  deriving DecidableEq, Repr

/-- Last n elements of a list (Python slicing l[-n:]). -/
def lastN {α : Type} (n : Nat) (l : List α) : List α :=
  l.drop (l.length - n)

/-- The dict persist_state writes: a snapshot of the session fields with
the chat history truncated to the last 50 entries. -/
def snapshot (s : SessionState) : StateDict :=
  { vector_store_id := s.vector_store_id
    num_uploaded_files := s.num_uploaded_files
    file_hashes_in_store := s.file_hashes_in_store
    existing_filenames_in_store := s.existing_filenames_in_store
    chat_history := lastN 50 s.chat_history }

/-- persist_state: write the snapshot of the session state to the durable
store (write failures are swallowed in app.py and change nothing the
claims observe, so the successful write is modelled). -/
def persistW (w : World) : World :=
  { w with d := snapshot w.s }

/-! ### Index binding resolver (ensure_vector_store_id) -/

/-- The fixed well-known store name. -/
def VECTOR_STORE_NAME : String := "reports_search_store"

/-- A remote vector store as seen through the list call. -/
structure VStore where
  id : String
  name : String
  deriving DecidableEq, Repr

/-- Oracle for the vector-store collaborator during one resolver run:
whether retrieve succeeds on a given id, the outcome of the list call
(error means the call raised), and the outcome of the create call. -/
structure VSEnv where
  retrieveOk : String → Bool
  listResult : Except Unit (List VStore)
  createResult : Except Unit String

/-- Observable events of a resolver run: collaborator calls and writes of
the durable store (each persist event records the dict written). -/
inductive CallEvt
  | retrieve (id : String)
  | listStores
  | createStore
  | persistEvt (d : StateDict)
  deriving DecidableEq, Repr

/-- First store whose name equals VECTOR_STORE_NAME, as in the for loop
over stores.data in app.py. -/
def findByName (stores : List VStore) : Option String :=
  (stores.find? (fun v => v.name == VECTOR_STORE_NAME)).map (fun v => v.id)

/-- Final fallback of ensure_vector_store_id: create a new store with the
fixed name, bind to it, reset the two bookkeeping sets, persist, return
its id. A create failure propagates (the error result). -/
def createPath (env : VSEnv) (w : World) :
    Except Unit (String × World) × List CallEvt :=
  match env.createResult with
  | Except.ok sid =>
      let s1 := { w.s with vector_store_id := some sid
                           existing_filenames_in_store := []
                           file_hashes_in_store := [] }
      let w1 := persistW { w with s := s1 }
      (Except.ok (sid, w1), [CallEvt.createStore, CallEvt.persistEvt w1.d])
  | Except.error _ => (Except.error (), [CallEvt.createStore])

/-- Middle step of ensure_vector_store_id: list the stores and search for
the fixed name; on a hit bind to it and persist without touching the
bookkeeping sets; on a miss or a listing failure fall through to
creation. -/
def lookupByName (env : VSEnv) (w : World) :
    Except Unit (String × World) × List CallEvt :=
  match env.listResult with
  | Except.ok stores =>
      match findByName stores with
      | some sid =>
          let w1 := persistW { w with s := { w.s with vector_store_id := some sid } }
          (Except.ok (sid, w1), [CallEvt.listStores, CallEvt.persistEvt w1.d])
      | none =>
          let r := createPath env w
          (r.1, CallEvt.listStores :: r.2)
  | Except.error _ =>
      let r := createPath env w
      (r.1, CallEvt.listStores :: r.2)

/-- ensure_vector_store_id from app.py: if a cached id is present, check
it with retrieve and return it unchanged on success; on failure clear the
id and both bookkeeping sets, persist, and fall through to the
lookup-by-name and creation chain. -/
def ensure_vector_store_id (env : VSEnv) (w : World) :
    Except Unit (String × World) × List CallEvt :=
  match w.s.vector_store_id with
  | some existing_id =>
      if env.retrieveOk existing_id then
        (Except.ok (existing_id, w), [CallEvt.retrieve existing_id])
      else
        let s1 := { w.s with vector_store_id := none
                             existing_filenames_in_store := []
                             file_hashes_in_store := [] }
        let w1 := persistW { w with s := s1 }
        let r := lookupByName env w1
        (r.1, CallEvt.retrieve existing_id :: CallEvt.persistEvt w1.d :: r.2)
  | none => lookupByName env w

/-- World component of a successful resolver result. -/
def okWorld (r : Except Unit (String × World)) : Option World :=
  match r with
  | Except.ok p => some p.2
  | Except.error _ => none

/-- Id component of a successful resolver result. -/
def okId (r : Except Unit (String × World)) : Option String :=
  match r with
  | Except.ok p => some p.1
  | Except.error _ => none

/-! ### Document ingestion pipeline (upload dedup loop, batch upload) -/

/-- An uploaded file: its name and raw bytes. -/
structure IngestFile where
  name : String
  bytes : List Nat
  deriving DecidableEq, Repr

/-- Accumulator of the upload loop: the staged temp-file streams (kept as
their byte contents), the names staged for the success messages, the
skipped counter, and the session state whose two dedup sets the loop
mutates. -/
structure DedupAcc where
  file_streams : List (List Nat)
  new_filenames : List String
  skipped : Nat
  s : SessionState
  deriving DecidableEq, Repr

/-- One iteration of the upload loop of app.py for one file: skip on a
content-hash hit, else skip on a filename hit, else stage the file and add
its hash and name to the two session sets. The content hash function
(hashlib.sha256 hexdigest in the source) is passed as a parameter. -/
def dedupStep (hashFn : List Nat → String) (acc : DedupAcc) (f : IngestFile) :
    DedupAcc :=
  let sha := hashFn f.bytes
  if sha ∈ acc.s.file_hashes_in_store then
    { acc with skipped := acc.skipped + 1 }
  else if f.name ∈ acc.s.existing_filenames_in_store then
    { acc with skipped := acc.skipped + 1 }
  else
    { file_streams := acc.file_streams ++ [f.bytes]
      new_filenames := acc.new_filenames ++ [f.name]
      skipped := acc.skipped
      s := { acc.s with
              file_hashes_in_store := acc.s.file_hashes_in_store.insert sha
              existing_filenames_in_store :=
                acc.s.existing_filenames_in_store.insert f.name } }

/-- The whole upload loop, left to right over the batch. -/
def dedupLoop (hashFn : List Nat → String) (files : List IngestFile)
    (acc : DedupAcc) : DedupAcc :=
  files.foldl (dedupStep hashFn) acc

/-- Loop entry: empty staging lists, zero skipped, the current session. -/
def dedupInit (s : SessionState) : DedupAcc :=
  { file_streams := [], new_filenames := [], skipped := 0, s := s }

/-- Oracle for the batch upload collaborator call
(upload_and_poll): error means the call raised. -/
structure UploadEnv where
  uploadResult : Except Unit Unit

/-- Result of one ingest run: the outcome (error means an exception left
the upload block), the resulting world, whether the batch upload
collaborator call was made, the names reported as added, and the skipped
count. -/
structure IngestOut where
  outcome : Except Unit Unit
  w : World
  uploadCalled : Bool
  added : List String
  skippedCount : Nat
  deriving DecidableEq, Repr

/-- The upload block of app.py after the resolver: run the dedup loop,
then if anything was staged submit the batch; on success add the staged
count to num_uploaded_files, report the staged names as added and
persist; if nothing was staged make no collaborator call and change
nothing. -/
def ingest (hashFn : List Nat → String) (env : UploadEnv)
    (files : List IngestFile) (w : World) : IngestOut :=
  let a := dedupLoop hashFn files (dedupInit w.s)
  if a.file_streams = [] then
    { outcome := Except.ok ()
      w := { w with s := a.s }
      uploadCalled := false
      added := a.new_filenames
      skippedCount := a.skipped }
  else
    match env.uploadResult with
    | Except.ok _ =>
        let s1 := { a.s with
                     num_uploaded_files := a.s.num_uploaded_files + a.file_streams.length }
        { outcome := Except.ok ()
          w := persistW { w with s := s1 }
          uploadCalled := true
          added := a.new_filenames
          skippedCount := a.skipped }
    | Except.error _ =>
        { outcome := Except.error ()
          w := { w with s := a.s }
          uploadCalled := true
          added := []
          skippedCount := a.skipped }

/-- Invariant of the dedup loop: staged names and staged content hashes
are duplicate free, and every staged name and hash is already recorded in
the corresponding session set (because staging adds them synchronously). -/
def DedupInv (hashFn : List Nat → String) (acc : DedupAcc) : Prop :=
  acc.new_filenames.Nodup ∧
  (acc.file_streams.map hashFn).Nodup ∧
  (∀ n ∈ acc.new_filenames, n ∈ acc.s.existing_filenames_in_store) ∧
  (∀ b ∈ acc.file_streams, hashFn b ∈ acc.s.file_hashes_in_store)

/-! ### Conversation engine (two-part chat rerun logic) -/

/-- The fixed apology string of app.py. -/
def APOLOGY : String :=
  "Sorry, I couldn\x27t answer that right now. Please try rephrasing or ask another question."

/-- Oracle for one streaming completion call: the output-text delta events
delivered before the stream ends, and whether an exception is raised
during the streaming block (mid-stream or at finalisation). -/
structure ChatEnv where
  deltas : List String
  streamErrored : Bool
  deriving DecidableEq, Repr

/-- Part 1 of the chat logic: when a nonempty query arrives and no query
is being processed, set the processing flag, append the user message to
the transcript, and rerun. No persist_state call happens here. -/
def chatPart1 (query : Option String) (w : World) : World :=
  match query with
  | none => w
  | some q =>
      if q = "" then w
      else if w.s.processing then w
      else
        { w with s := { w.s with processing := true
                                 chat_history := w.s.chat_history ++ [("You", q)] } }

/-- Part 2 of the chat logic, run on the rerun: if processing and the last
transcript entry is a user message, run the streaming call; the
accumulated deltas form the answer, but any exception replaces the whole
accumulated text with the fixed apology; append exactly one assistant
entry and persist; finally clear the processing flag. -/
def chatPart2 (env : ChatEnv) (w : World) : World :=
  if w.s.processing then
    let w1 :=
      match w.s.chat_history.getLast? with
      | some entry =>
          if entry.1 = "You" then
            let streamed :=
              if env.streamErrored then APOLOGY else String.join env.deltas
            persistW
              { w with s := { w.s with
                               chat_history := w.s.chat_history ++ [("AI", streamed)] } }
          else w
      | none => w
    { w1 with s := { w1.s with processing := false } }
  else w

/-- The clear-chat-history button: empty the transcript and persist. -/
def clearChatHistory (w : World) : World :=
  persistW { w with s := { w.s with chat_history := [] } }

/-! ### Concrete sample inputs for witnesses and counterexamples -/

/-- Fresh world: default session, default durable copy. -/
def W0 : World := { s := initSession DEFAULT_STATE, d := DEFAULT_STATE }

/-- World with five documents already counted and no cached store id. -/
def W5 : World :=
  { s := { initSession DEFAULT_STATE with num_uploaded_files := 5 }
    d := DEFAULT_STATE }

/-- World with a cached store id, nonempty bookkeeping and five documents. -/
def Wcached : World :=
  { s := { vector_store_id := some "vs_old"
           num_uploaded_files := 5
           file_hashes_in_store := ["h1"]
           existing_filenames_in_store := ["a.pdf"]
           chat_history := []
           processing := false }
    d := DEFAULT_STATE }

/-- Environment in which every step works and creation yields vs_new. -/
def ENVcreate : VSEnv :=
  { retrieveOk := fun _ => false
    listResult := Except.ok []
    createResult := Except.ok "vs_new" }

/-- Environment in which the cached id validates. -/
def ENVvalid : VSEnv :=
  { retrieveOk := fun _ => true
    listResult := Except.ok []
    createResult := Except.error () }

/-- Environment in which the cached id is stale and the fixed name is
found by listing. -/
def ENVfound : VSEnv :=
  { retrieveOk := fun _ => false
    listResult := Except.ok [{ id := "vs_found", name := "reports_search_store" }]
    createResult := Except.error () }

/-- A toy content hash for concrete evaluation: the rendered byte sum. -/
def toyHash (b : List Nat) : String :=
  toString (b.foldl (fun x y => x + y) 0)

/-- A sample fresh file for witnesses. -/
def F0 : IngestFile := { name := "b.pdf", bytes := [1, 2] }

/-- A sample file whose name collides with one already in the library. -/
def F1 : IngestFile := { name := "a.pdf", bytes := [9] }

/-- The world produced by creating vs_new from W5. -/
def WNew : World :=
  { s := { vector_store_id := some "vs_new", num_uploaded_files := 5,
           file_hashes_in_store := [], existing_filenames_in_store := [],
           chat_history := [], processing := false }
    d := { vector_store_id := some "vs_new", num_uploaded_files := 5,
           file_hashes_in_store := [], existing_filenames_in_store := [],
           chat_history := [] } }

/-- A streaming run that delivers one delta and then raises. -/
def CE1 : ChatEnv := { deltas := ["abc"], streamErrored := true }

/-- A batch upload collaborator that succeeds. -/
def UPok : UploadEnv := { uploadResult := Except.ok () }

/-! ### Helper lemmas -/

theorem getLast?_append_one {α : Type} (l : List α) (x : α) :
    (l ++ [x]).getLast? = some x := by
  induction l with
  | nil => rfl
  | cons a t ih =>
      cases t with
      | nil => rfl
      | cons b t2 =>
          simp only [List.cons_append, List.getLast?_cons_cons]
          simpa using ih

theorem createPath_isOk (env : VSEnv) (w : World) {sid : String}
    (h : env.createResult = Except.ok sid) :
    ∃ p, (createPath env w).1 = Except.ok p := by
  unfold createPath
  rw [h]
  exact ⟨_, rfl⟩

theorem lookupByName_isOk (env : VSEnv) (w : World) {sid : String}
    (h : env.createResult = Except.ok sid) :
    ∃ p, (lookupByName env w).1 = Except.ok p := by
  cases hl : env.listResult with
  | ok stores =>
      cases hf : findByName stores with
      | some sid2 =>
          exact ⟨(sid2, persistW { w with s := { w.s with vector_store_id := some sid2 } }),
            by simp [lookupByName, hl, hf]⟩
      | none =>
          obtain ⟨p, hp⟩ := createPath_isOk env w h
          exact ⟨p, by simp [lookupByName, hl, hf, hp]⟩
  | error e =>
      obtain ⟨p, hp⟩ := createPath_isOk env w h
      exact ⟨p, by simp [lookupByName, hl, hp]⟩

theorem createPath_count {env : VSEnv} {w : World} {sid : String} {w1 : World}
    (h : (createPath env w).1 = Except.ok (sid, w1)) :
    w1.s.num_uploaded_files = w.s.num_uploaded_files := by
  cases hc : env.createResult with
  | ok sid2 =>
      simp only [createPath, hc, Except.ok.injEq, Prod.mk.injEq] at h
      rw [← h.2]
      rfl
  | error e =>
      simp [createPath, hc] at h

theorem lookupByName_count {env : VSEnv} {w : World} {sid : String} {w1 : World}
    (h : (lookupByName env w).1 = Except.ok (sid, w1)) :
    w1.s.num_uploaded_files = w.s.num_uploaded_files := by
  cases hl : env.listResult with
  | ok stores =>
      cases hf : findByName stores with
      | some sid2 =>
          simp only [lookupByName, hl, hf, Except.ok.injEq, Prod.mk.injEq] at h
          rw [← h.2]
          rfl
      | none =>
          simp only [lookupByName, hl, hf] at h
          exact createPath_count h
  | error e =>
      simp only [lookupByName, hl] at h
      exact createPath_count h

theorem lookupByName_trace_head (env : VSEnv) (w : World) :
    (lookupByName env w).2.head? = some CallEvt.listStores := by
  cases hl : env.listResult with
  | ok stores =>
      cases hf : findByName stores with
      | some sid => simp [lookupByName, hl, hf]
      | none => simp [lookupByName, hl, hf]
  | error e => simp [lookupByName, hl]

/-! ### Claim theorems -/

/-- C9: load_persisted_state never fails: a missing, unreadable or
malformed state file yields DEFAULT_STATE silently, and a readable
well-formed file merges the persisted fields over the defaults
(field present: persisted value; field absent: the default). -/
theorem load_never_fails_and_merges :
    load_persisted_state FileCond.missing = DEFAULT_STATE ∧
    load_persisted_state FileCond.unreadable = DEFAULT_STATE ∧
    load_persisted_state FileCond.malformed = DEFAULT_STATE ∧
    ∀ d : PersistedDoc,
      (load_persisted_state (FileCond.wellFormed d)).vector_store_id
          = d.vector_store_id.getD none ∧
      (load_persisted_state (FileCond.wellFormed d)).num_uploaded_files
          = d.num_uploaded_files.getD 0 ∧
      (load_persisted_state (FileCond.wellFormed d)).file_hashes_in_store
          = d.file_hashes_in_store.getD [] ∧
      (load_persisted_state (FileCond.wellFormed d)).existing_filenames_in_store
          = d.existing_filenames_in_store.getD [] ∧
      (load_persisted_state (FileCond.wellFormed d)).chat_history
          = d.chat_history.getD [] :=
  ⟨rfl, rfl, rfl, fun _ => ⟨rfl, rfl, rfl, rfl, rfl⟩⟩

/-- C10: the clear-chat-history action empties only the transcript and
persists; the store id, the document count, both dedup sets and the
processing flag are untouched, and the durable copy is exactly the
snapshot of the resulting session state. -/
theorem clear_chat_only_clears_transcript (w : World) :
    (clearChatHistory w).s.chat_history = [] ∧
    (clearChatHistory w).s.vector_store_id = w.s.vector_store_id ∧
    (clearChatHistory w).s.num_uploaded_files = w.s.num_uploaded_files ∧
    (clearChatHistory w).s.file_hashes_in_store = w.s.file_hashes_in_store ∧
    (clearChatHistory w).s.existing_filenames_in_store
        = w.s.existing_filenames_in_store ∧
    (clearChatHistory w).s.processing = w.s.processing ∧
    (clearChatHistory w).d = snapshot (clearChatHistory w).s :=
  ⟨rfl, rfl, rfl, rfl, rfl, rfl, rfl⟩

/-- C2 counterexample: on a fresh world, submitting the question hi
appends it to the in-memory transcript, but the durable store still holds
the empty transcript: part 1 of the chat logic makes no persist call, so
the question is not durable before the answer step runs. -/
theorem user_submit_not_persisted_cex :
    (chatPart1 (some "hi") W0).s.chat_history = [("You", "hi")] ∧
    (chatPart1 (some "hi") W0).d = W0.d ∧
    (chatPart1 (some "hi") W0).d.chat_history = [] := by
  decide

/-- C2 amended: entering UserSubmitted appends the user message to the
in-memory transcript and sets the processing flag, but does not write the
durable store; persistence happens only later, after the assistant entry
is appended in part 2. -/
theorem user_submit_appends_and_defers_persist (q : String) (w : World)
    (hq : q ≠ "") (hp : w.s.processing = false) :
    (chatPart1 (some q) w).s.chat_history = w.s.chat_history ++ [("You", q)] ∧
    (chatPart1 (some q) w).s.processing = true ∧
    (chatPart1 (some q) w).d = w.d := by
  simp [chatPart1, hq, hp]

/-- C2 amended witness at a concrete input. -/
theorem user_submit_appends_and_defers_persist_witness :
    (("hello" : String) ≠ "" ∧ W5.s.processing = false) ∧
    ((chatPart1 (some "hello") W5).s.chat_history
        = W5.s.chat_history ++ [("You", "hello")] ∧
      (chatPart1 (some "hello") W5).s.processing = true ∧
      (chatPart1 (some "hello") W5).d = W5.d) :=
  ⟨⟨by decide, by decide⟩,
    user_submit_appends_and_defers_persist "hello" W5 (by decide) (by decide)⟩

/-- C6: ensure_vector_store_id propagates an error only when the create
call itself fails; retrieve and list failures are swallowed and the
fallback chain proceeds, so whenever creation would succeed the whole
resolver succeeds. -/
theorem ensure_fails_only_on_create (env : VSEnv) (w : World) :
    (∃ p, (ensure_vector_store_id env w).1 = Except.ok p) ∨
      env.createResult = Except.error () := by
  cases hc : env.createResult with
  | error e => right; cases e; rfl
  | ok sid =>
      left
      cases hv : w.s.vector_store_id with
      | none =>
          obtain ⟨p, hp⟩ := lookupByName_isOk env w hc
          exact ⟨p, by simp [ensure_vector_store_id, hv, hp]⟩
      | some existing_id =>
          by_cases hr : env.retrieveOk existing_id = true
          · exact ⟨(existing_id, w), by simp [ensure_vector_store_id, hv, hr]⟩
          · obtain ⟨p, hp⟩ :=
              lookupByName_isOk env
                (persistW
                  { w with s := { w.s with vector_store_id := none
                                           existing_filenames_in_store := []
                                           file_hashes_in_store := [] } }) hc
            exact ⟨p, by simp [ensure_vector_store_id, hv, hr, hp]⟩

/-- C7: with a valid cached id, ensure_vector_store_id returns that id and
leaves the world unchanged, so a second call returns the same id; the
second call makes neither a list call nor a create call. -/
theorem ensure_rebind_idempotent (env : VSEnv) (w : World) (id1 : String)
    (h1 : w.s.vector_store_id = some id1) (h2 : env.retrieveOk id1 = true) :
    ∃ w1 : World,
      (ensure_vector_store_id env w).1 = Except.ok (id1, w1) ∧
      (ensure_vector_store_id env w1).1 = Except.ok (id1, w1) ∧
      CallEvt.listStores ∉ (ensure_vector_store_id env w1).2 ∧
      CallEvt.createStore ∉ (ensure_vector_store_id env w1).2 := by
  refine ⟨w, ?_, ?_, ?_, ?_⟩ <;> simp [ensure_vector_store_id, h1, h2]

/-- C1 counterexample: starting from W5 (five documents counted, no
cached id, no store with the fixed name), ensure_vector_store_id creates
a new index, yet num_uploaded_files stays 5 instead of being reset to 0:
the creation path clears only the two bookkeeping sets. -/
theorem create_does_not_reset_count_cex :
    CallEvt.createStore ∈ (ensure_vector_store_id ENVcreate W5).2 ∧
    (okWorld (ensure_vector_store_id ENVcreate W5).1).map
        (fun w => w.s.num_uploaded_files) = some 5 ∧
    W5.s.num_uploaded_files = 5 ∧ (5 : Nat) ≠ 0 := by
  decide

/-- C1 amended: ensure_vector_store_id never changes num_uploaded_files on
any path; in particular creating a new index clears the two bookkeeping
sets but leaves the document count as it was, and rebinding or
rediscovering an index also leaves it unchanged. -/
theorem ensure_never_resets_count (env : VSEnv) (w : World) (sid : String)
    (w1 : World)
    (h : (ensure_vector_store_id env w).1 = Except.ok (sid, w1)) :
    w1.s.num_uploaded_files = w.s.num_uploaded_files := by
  cases hv : w.s.vector_store_id with
  | none =>
      simp only [ensure_vector_store_id, hv] at h
      exact lookupByName_count h
  | some eid =>
      by_cases hr : env.retrieveOk eid = true
      · simp only [ensure_vector_store_id, hv, hr, if_true,
          Except.ok.injEq, Prod.mk.injEq] at h
        rw [← h.2]
      · simp only [ensure_vector_store_id, hv] at h
        rw [if_neg hr] at h
        have h2 : (lookupByName env
            (persistW
              { w with s := { w.s with vector_store_id := none
                                       existing_filenames_in_store := []
                                       file_hashes_in_store := [] } })).1 =
            Except.ok (sid, w1) := h
        have h3 := lookupByName_count h2
        exact h3

/-- C1 amended witness at a concrete input. -/
theorem ensure_never_resets_count_witness :
    (ensure_vector_store_id ENVcreate W5).1 = Except.ok ("vs_new", WNew) ∧
    WNew.s.num_uploaded_files = W5.s.num_uploaded_files :=
  ⟨by decide,
    ensure_never_resets_count ENVcreate W5 "vs_new" WNew (by decide)⟩

/-- C5: when the cached id fails its validity check, the resolver clears
the id and both bookkeeping sets together and persists that cleared state
(the persist event precedes the list call in the trace, and the persisted
dict has no id, empty sets, and the unchanged document count); and when an
index is rediscovered by name, the hash and filename bookkeeping is left
untouched. -/
theorem stale_id_clears_together_and_rediscovery_preserves
    (env : VSEnv) (w : World) (id1 : String)
    (h1 : w.s.vector_store_id = some id1) (h2 : env.retrieveOk id1 = false) :
    (∃ d1 rest,
        (ensure_vector_store_id env w).2 =
          CallEvt.retrieve id1 :: CallEvt.persistEvt d1 :: rest ∧
        d1.vector_store_id = none ∧
        d1.file_hashes_in_store = [] ∧
        d1.existing_filenames_in_store = [] ∧
        d1.num_uploaded_files = w.s.num_uploaded_files ∧
        rest.head? = some CallEvt.listStores) ∧
    (∀ w0 : World, w0.s.vector_store_id = none →
        ∀ (stores : List VStore) (sid : String),
          env.listResult = Except.ok stores → findByName stores = some sid →
          ∃ w1, (ensure_vector_store_id env w0).1 = Except.ok (sid, w1) ∧
            w1.s.file_hashes_in_store = w0.s.file_hashes_in_store ∧
            w1.s.existing_filenames_in_store
                = w0.s.existing_filenames_in_store ∧
            w1.s.num_uploaded_files = w0.s.num_uploaded_files) := by
  constructor
  · refine ⟨snapshot { w.s with vector_store_id := none
                                existing_filenames_in_store := []
                                file_hashes_in_store := [] },
      (lookupByName env
        (persistW { w with s := { w.s with vector_store_id := none
                                           existing_filenames_in_store := []
                                           file_hashes_in_store := [] } })).2,
      ?_, rfl, rfl, rfl, rfl, lookupByName_trace_head _ _⟩
    simp [ensure_vector_store_id, h1, h2, persistW]
  · intro w0 h0 stores sid hl hf
    refine ⟨persistW { w0 with s := { w0.s with vector_store_id := some sid } },
      ?_, rfl, rfl, rfl⟩
    simp [ensure_vector_store_id, h0, lookupByName, hl, hf]

/-- C5 witness at a concrete input. -/
theorem stale_id_clears_witness :
    (Wcached.s.vector_store_id = some "vs_old" ∧
      ENVfound.retrieveOk "vs_old" = false) ∧
    ((∃ d1 rest,
        (ensure_vector_store_id ENVfound Wcached).2 =
          CallEvt.retrieve "vs_old" :: CallEvt.persistEvt d1 :: rest ∧
        d1.vector_store_id = none ∧
        d1.file_hashes_in_store = [] ∧
        d1.existing_filenames_in_store = [] ∧
        d1.num_uploaded_files = Wcached.s.num_uploaded_files ∧
        rest.head? = some CallEvt.listStores) ∧
    (∀ w0 : World, w0.s.vector_store_id = none →
        ∀ (stores : List VStore) (sid : String),
          ENVfound.listResult = Except.ok stores → findByName stores = some sid →
          ∃ w1, (ensure_vector_store_id ENVfound w0).1 = Except.ok (sid, w1) ∧
            w1.s.file_hashes_in_store = w0.s.file_hashes_in_store ∧
            w1.s.existing_filenames_in_store
                = w0.s.existing_filenames_in_store ∧
            w1.s.num_uploaded_files = w0.s.num_uploaded_files)) :=
  ⟨⟨rfl, rfl⟩,
    stale_id_clears_together_and_rediscovery_preserves ENVfound Wcached
      "vs_old" rfl rfl⟩

/-- C3: when the streaming completion raises (possibly mid-stream), the
full exchange still adds exactly one user entry and exactly one assistant
entry to the transcript, the assistant entry is the fixed apology string,
and the partial streamed deltas are discarded; the processing flag is
cleared afterwards. -/
theorem ask_error_still_pairs (env : ChatEnv) (q : String) (w : World)
    (hq : q ≠ "") (hp : w.s.processing = false) (he : env.streamErrored = true) :
    (chatPart2 env (chatPart1 (some q) w)).s.chat_history =
      w.s.chat_history ++ [("You", q), ("AI", APOLOGY)] ∧
    (chatPart2 env (chatPart1 (some q) w)).s.processing = false := by
  have hstep : chatPart1 (some q) w =
      { w with s := { w.s with processing := true
                               chat_history := w.s.chat_history ++ [("You", q)] } } := by
    simp [chatPart1, hq, hp]
  rw [hstep]
  constructor
  · simp [chatPart2, getLast?_append_one, he, persistW, snapshot]
  · simp [chatPart2, getLast?_append_one, he, persistW, snapshot]

/-- C3 witness at a concrete input. -/
theorem ask_error_still_pairs_witness :
    (("Q" : String) ≠ "" ∧ W0.s.processing = false ∧ CE1.streamErrored = true) ∧
    ((chatPart2 CE1 (chatPart1 (some "Q") W0)).s.chat_history =
        W0.s.chat_history ++ [("You", "Q"), ("AI", APOLOGY)] ∧
      (chatPart2 CE1 (chatPart1 (some "Q") W0)).s.processing = false) :=
  ⟨⟨by decide, rfl, rfl⟩,
    ask_error_still_pairs CE1 "Q" W0 (by decide) rfl rfl⟩

/-- C7 witness at a concrete input. -/
theorem ensure_rebind_idempotent_witness :
    (Wcached.s.vector_store_id = some "vs_old" ∧
      ENVvalid.retrieveOk "vs_old" = true) ∧
    (∃ w1 : World,
      (ensure_vector_store_id ENVvalid Wcached).1 = Except.ok ("vs_old", w1) ∧
      (ensure_vector_store_id ENVvalid w1).1 = Except.ok ("vs_old", w1) ∧
      CallEvt.listStores ∉ (ensure_vector_store_id ENVvalid w1).2 ∧
      CallEvt.createStore ∉ (ensure_vector_store_id ENVvalid w1).2) :=
  ⟨⟨rfl, rfl⟩,
    ensure_rebind_idempotent ENVvalid Wcached "vs_old" rfl rfl⟩

theorem dedupInit_s (s : SessionState) : (dedupInit s).s = s := rfl

theorem dedupStep_skip_hash (hashFn : List Nat → String) (acc : DedupAcc)
    (f : IngestFile) (h : hashFn f.bytes ∈ acc.s.file_hashes_in_store) :
    dedupStep hashFn acc f = { acc with skipped := acc.skipped + 1 } := by
  simp [dedupStep, h]

theorem dedupStep_skip_name (hashFn : List Nat → String) (acc : DedupAcc)
    (f : IngestFile) (h1 : hashFn f.bytes ∉ acc.s.file_hashes_in_store)
    (h2 : f.name ∈ acc.s.existing_filenames_in_store) :
    dedupStep hashFn acc f = { acc with skipped := acc.skipped + 1 } := by
  simp [dedupStep, h1, h2]

theorem dedupStep_stage (hashFn : List Nat → String) (acc : DedupAcc)
    (f : IngestFile) (h1 : hashFn f.bytes ∉ acc.s.file_hashes_in_store)
    (h2 : f.name ∉ acc.s.existing_filenames_in_store) :
    dedupStep hashFn acc f =
      { file_streams := acc.file_streams ++ [f.bytes]
        new_filenames := acc.new_filenames ++ [f.name]
        skipped := acc.skipped
        s := { acc.s with
                file_hashes_in_store :=
                  acc.s.file_hashes_in_store.insert (hashFn f.bytes)
                existing_filenames_in_store :=
                  acc.s.existing_filenames_in_store.insert f.name } } := by
  simp [dedupStep, h1, h2]

theorem dedupStep_inv (hashFn : List Nat → String) (acc : DedupAcc)
    (f : IngestFile) (h : DedupInv hashFn acc) :
    DedupInv hashFn (dedupStep hashFn acc f) := by
  obtain ⟨hn, hh, hns, hhs⟩ := h
  by_cases c1 : hashFn f.bytes ∈ acc.s.file_hashes_in_store
  · rw [dedupStep_skip_hash hashFn acc f c1]
    exact ⟨hn, hh, hns, hhs⟩
  · by_cases c2 : f.name ∈ acc.s.existing_filenames_in_store
    · rw [dedupStep_skip_name hashFn acc f c1 c2]
      exact ⟨hn, hh, hns, hhs⟩
    · rw [dedupStep_stage hashFn acc f c1 c2]
      refine ⟨?_, ?_, ?_, ?_⟩
      · have hnotin : f.name ∉ acc.new_filenames := fun hm => c2 (hns f.name hm)
        rw [List.nodup_append_comm]
        simp only [List.singleton_append, List.nodup_cons]
        exact ⟨hnotin, hn⟩
      · have hnotin : hashFn f.bytes ∉ acc.file_streams.map hashFn := by
          intro hm
          obtain ⟨b, hb, heq⟩ := List.mem_map.mp hm
          exact c1 (heq ▸ hhs b hb)
        rw [List.map_append, List.nodup_append_comm]
        simp only [List.map_cons, List.map_nil, List.singleton_append,
          List.nodup_cons]
        exact ⟨hnotin, hh⟩
      · intro n hmem
        rcases List.mem_append.mp hmem with hm1 | hm2
        · exact List.mem_insert_of_mem (hns n hm1)
        · rw [List.mem_singleton.mp hm2]
          exact List.mem_insert_self _ _
      · intro b hmem
        rcases List.mem_append.mp hmem with hm1 | hm2
        · exact List.mem_insert_of_mem (hhs b hm1)
        · rw [List.mem_singleton.mp hm2]
          exact List.mem_insert_self _ _

theorem dedupLoop_inv (hashFn : List Nat → String) :
    ∀ (files : List IngestFile) (acc : DedupAcc),
      DedupInv hashFn acc → DedupInv hashFn (dedupLoop hashFn files acc) := by
  intro files
  induction files with
  | nil => intro acc h; exact h
  | cons f t ih =>
      intro acc h
      exact ih (dedupStep hashFn acc f) (dedupStep_inv hashFn acc f h)

theorem dedupInit_inv (hashFn : List Nat → String) (s : SessionState) :
    DedupInv hashFn (dedupInit s) :=
  ⟨List.nodup_nil, List.nodup_nil,
    fun n h => absurd h (List.not_mem_nil n),
    fun b h => absurd h (List.not_mem_nil b)⟩

theorem dedupStep_count (hashFn : List Nat → String) (acc : DedupAcc)
    (f : IngestFile) :
    (dedupStep hashFn acc f).s.num_uploaded_files = acc.s.num_uploaded_files := by
  by_cases c1 : hashFn f.bytes ∈ acc.s.file_hashes_in_store
  · rw [dedupStep_skip_hash hashFn acc f c1]
  · by_cases c2 : f.name ∈ acc.s.existing_filenames_in_store
    · rw [dedupStep_skip_name hashFn acc f c1 c2]
    · rw [dedupStep_stage hashFn acc f c1 c2]

theorem dedupLoop_count (hashFn : List Nat → String) :
    ∀ (files : List IngestFile) (acc : DedupAcc),
      (dedupLoop hashFn files acc).s.num_uploaded_files
        = acc.s.num_uploaded_files := by
  intro files
  induction files with
  | nil => intro acc; rfl
  | cons f t ih =>
      intro acc
      rw [show dedupLoop hashFn (f :: t) acc
            = dedupLoop hashFn t (dedupStep hashFn acc f) from rfl,
          ih, dedupStep_count]

theorem dedupStep_lockstep (hashFn : List Nat → String) (acc : DedupAcc)
    (f : IngestFile)
    (h : acc.new_filenames.length = acc.file_streams.length) :
    (dedupStep hashFn acc f).new_filenames.length
      = (dedupStep hashFn acc f).file_streams.length := by
  by_cases c1 : hashFn f.bytes ∈ acc.s.file_hashes_in_store
  · rw [dedupStep_skip_hash hashFn acc f c1]
    exact h
  · by_cases c2 : f.name ∈ acc.s.existing_filenames_in_store
    · rw [dedupStep_skip_name hashFn acc f c1 c2]
      exact h
    · rw [dedupStep_stage hashFn acc f c1 c2]
      simp [h]

theorem dedupLoop_lockstep (hashFn : List Nat → String) :
    ∀ (files : List IngestFile) (acc : DedupAcc),
      acc.new_filenames.length = acc.file_streams.length →
      (dedupLoop hashFn files acc).new_filenames.length
        = (dedupLoop hashFn files acc).file_streams.length := by
  intro files
  induction files with
  | nil => intro acc h; exact h
  | cons f t ih =>
      intro acc h
      exact ih (dedupStep hashFn acc f) (dedupStep_lockstep hashFn acc f h)

/-- C4: within one ingest batch the files are evaluated in order and each
is classified exactly as the code writes it: a hash already in
file_hashes_in_store skips the file, else a name already in
existing_filenames_in_store skips it, else it is staged and its hash and
name enter the two session sets at once; consequently the staged files of
one batch carry pairwise distinct names and pairwise distinct content
hashes, so a later file of the same batch with the same bytes or the same
name is skipped rather than staged again. -/
theorem dedup_classifies_and_prevents_batch_dups (hashFn : List Nat → String) :
    (∀ (acc : DedupAcc) (f : IngestFile),
      (hashFn f.bytes ∈ acc.s.file_hashes_in_store →
        dedupStep hashFn acc f = { acc with skipped := acc.skipped + 1 }) ∧
      (hashFn f.bytes ∉ acc.s.file_hashes_in_store →
        f.name ∈ acc.s.existing_filenames_in_store →
        dedupStep hashFn acc f = { acc with skipped := acc.skipped + 1 }) ∧
      (hashFn f.bytes ∉ acc.s.file_hashes_in_store →
        f.name ∉ acc.s.existing_filenames_in_store →
        dedupStep hashFn acc f =
          { file_streams := acc.file_streams ++ [f.bytes]
            new_filenames := acc.new_filenames ++ [f.name]
            skipped := acc.skipped
            s := { acc.s with
                    file_hashes_in_store :=
                      acc.s.file_hashes_in_store.insert (hashFn f.bytes)
                    existing_filenames_in_store :=
                      acc.s.existing_filenames_in_store.insert f.name } })) ∧
    (∀ (files : List IngestFile) (s : SessionState),
      (dedupLoop hashFn files (dedupInit s)).new_filenames.Nodup ∧
      ((dedupLoop hashFn files (dedupInit s)).file_streams.map hashFn).Nodup) := by
  constructor
  · intro acc f
    exact ⟨dedupStep_skip_hash hashFn acc f,
      dedupStep_skip_name hashFn acc f,
      dedupStep_stage hashFn acc f⟩
  · intro files s
    have h := dedupLoop_inv hashFn files (dedupInit s) (dedupInit_inv hashFn s)
    exact ⟨h.1, h.2.1⟩

/-- C4 witness at concrete inputs: a fresh file is staged with both sets
updated, and a two-file batch yields duplicate-free staged names. -/
theorem dedup_classifies_witness :
    (toyHash F0.bytes ∉ (dedupInit Wcached.s).s.file_hashes_in_store ∧
      F0.name ∉ (dedupInit Wcached.s).s.existing_filenames_in_store) ∧
    dedupStep toyHash (dedupInit Wcached.s) F0 =
      { file_streams := (dedupInit Wcached.s).file_streams ++ [F0.bytes]
        new_filenames := (dedupInit Wcached.s).new_filenames ++ [F0.name]
        skipped := (dedupInit Wcached.s).skipped
        s := { (dedupInit Wcached.s).s with
                file_hashes_in_store :=
                  (dedupInit Wcached.s).s.file_hashes_in_store.insert
                    (toyHash F0.bytes)
                existing_filenames_in_store :=
                  (dedupInit Wcached.s).s.existing_filenames_in_store.insert
                    F0.name } } ∧
    (dedupLoop toyHash [F0, F1] (dedupInit Wcached.s)).new_filenames.Nodup :=
  ⟨⟨by decide, by decide⟩,
    ((dedup_classifies_and_prevents_batch_dups toyHash).1
        (dedupInit Wcached.s) F0).2.2 (by decide) (by decide),
    ((dedup_classifies_and_prevents_batch_dups toyHash).2
        [F0, F1] Wcached.s).1⟩

/-- C8: if the dedup loop stages nothing (all duplicates, or an empty
batch), the batch-upload collaborator call is not made, the added list is
empty, and num_uploaded_files is unchanged; and when the batch upload
succeeds, num_uploaded_files grows by exactly the number of staged
files. -/
theorem ingest_all_duplicates_and_success_count (hashFn : List Nat → String)
    (env : UploadEnv) (files : List IngestFile) (w : World) :
    ((dedupLoop hashFn files (dedupInit w.s)).file_streams = [] →
        (ingest hashFn env files w).uploadCalled = false ∧
        (ingest hashFn env files w).added = [] ∧
        (ingest hashFn env files w).w.s.num_uploaded_files
            = w.s.num_uploaded_files) ∧
    (env.uploadResult = Except.ok () →
        (ingest hashFn env files w).w.s.num_uploaded_files =
          w.s.num_uploaded_files +
            (dedupLoop hashFn files (dedupInit w.s)).file_streams.length) := by
  constructor
  · intro h
    have hlen := dedupLoop_lockstep hashFn files (dedupInit w.s) rfl
    rw [h] at hlen
    have hnew : (dedupLoop hashFn files (dedupInit w.s)).new_filenames = [] :=
      List.length_eq_zero.mp hlen
    refine ⟨?_, ?_, ?_⟩ <;>
      simp [ingest, h, hnew, dedupLoop_count, dedupInit_s]
  · intro hu
    by_cases hs : (dedupLoop hashFn files (dedupInit w.s)).file_streams = []
    · simp [ingest, hs, dedupLoop_count, dedupInit_s]
    · simp [ingest, hs, hu, persistW, snapshot, dedupLoop_count, dedupInit_s]

/-- C8 witness at a concrete input: a batch whose only file duplicates a
known filename stages nothing, calls no collaborator, and leaves the
count unchanged (which also matches the success-count equation with zero
staged files). -/
theorem ingest_all_duplicates_witness :
    ((dedupLoop toyHash [F1] (dedupInit Wcached.s)).file_streams = [] ∧
      UPok.uploadResult = Except.ok ()) ∧
    ((ingest toyHash UPok [F1] Wcached).uploadCalled = false ∧
      (ingest toyHash UPok [F1] Wcached).added = [] ∧
      (ingest toyHash UPok [F1] Wcached).w.s.num_uploaded_files
          = Wcached.s.num_uploaded_files) ∧
    (ingest toyHash UPok [F1] Wcached).w.s.num_uploaded_files =
      Wcached.s.num_uploaded_files +
        (dedupLoop toyHash [F1] (dedupInit Wcached.s)).file_streams.length :=
  ⟨⟨by decide, rfl⟩,
    (ingest_all_duplicates_and_success_count toyHash UPok [F1] Wcached).1
      (by decide),
    (ingest_all_duplicates_and_success_count toyHash UPok [F1] Wcached).2 rfl⟩

end AskDocs
